import Mathlib

/-
Verification of the rust-types library (src/mod.ts): a `Result` container
(Ok-or-Error) and an `Option` container (Some-or-None), with constructors,
type predicates, extraction operations (some of which throw), deep
unwrapping over heterogeneously nested containers, and map / mapErr
transformations.

The embedding mirrors the TypeScript source.  JavaScript runtime values that
can flow through the two containers are modelled by the inductive `Value`;
nested containers are `Value.res` / `Value.opt`, which is what the
`instanceof Result` / `instanceof Option` checks of `unwrapDeep` inspect.
A `Result` instance is its `type` tag (the string "ok" or "error") together
with its `value` and `error` slots; the inactive slot holds `undefined`
(the source's `Never = undefined as never`).  An `Option` instance is its
`type` tag ("some" or "none") and its `value` slot.

Throwing methods return `Except Exn _`.  `Exn.raised v` models
`throw v` of an already-existing object (as `unwrap` does with the stored
error), while `Exn.freshError msg` models `throw new Error(msg)`: a freshly
allocated Error object, which by JavaScript allocation semantics is
distinct, as an object identity, from every value that existed before the
call.  Methods whose bodies contain no `throw` statement are embedded as
plain total functions.
-/

namespace RustTypes

mutual

/-- Runtime values: the two absence sentinels, primitives, error objects
(message-bearing), and instances of the two container classes. -/
inductive Value : Type where
  | undefined : Value
  | vnull : Value
  | int : Int → Value
  | str : String → Value
  | errObj : String → Value
  | res : Result → Value
  | opt : Option → Value

/-- An instance of `class Result`: fields `type`, `value`, `error`
(src/mod.ts lines 7-12). -/
inductive Result : Type where
  | mk : String → Value → Value → Result

/-- An instance of `class Option`: fields `type`, `value`
(src/mod.ts lines 97-101). -/
inductive Option : Type where
  | mk : String → Value → Option

end

/-- Exceptions: `raised v` is `throw v` of a pre-existing object,
`freshError msg` is `throw new Error(msg)` (a fresh allocation, distinct
from every pre-existing object). -/
inductive Exn : Type where
  | raised : Value → Exn
  | freshError : String → Exn

/-- Field `type` of a Result. -/
def Result.type : Result → String
  | .mk t _ _ => t

/-- Field `value` of a Result. -/
def Result.value : Result → Value
  | .mk _ v _ => v

/-- Field `error` of a Result. -/
def Result.error : Result → Value
  | .mk _ _ e => e

/-- Field `type` of an Option. -/
def Option.type : Option → String
  | .mk t _ => t

/-- Field `value` of an Option. -/
def Option.value : Option → Value
  | .mk _ v => v

/-- `static ok<T>(value)`: `new Result("ok", value)`; the error slot
defaults to the `Never` marker, i.e. `undefined` (src/mod.ts 15-17). -/
def Result.ok (v : Value) : Result := .mk "ok" v .undefined

/-- `static err<E>(error)`: `new Result("error", Never, error)`
(src/mod.ts 20-22). -/
def Result.err (e : Value) : Result := .mk "error" .undefined e

/-- `isOk()`: `this.type === "ok"` (src/mod.ts 32-34). -/
def Result.isOk (r : Result) : Bool := r.type == "ok"

/-- `isErr()`: `this.type === "error"` (src/mod.ts 37-39). -/
def Result.isErr (r : Result) : Bool := r.type == "error"

/-- `unwrap()`: return `this.value` if ok, else `throw this.error`
(src/mod.ts 42-47). -/
def Result.unwrap (r : Result) : Except Exn Value :=
  if r.isOk then .ok r.value else .error (.raised r.error)

/-- `unwrapOr(fallbackValue)`: `this.isOk() ? this.value : fallbackValue`
(src/mod.ts 50-52). -/
def Result.unwrapOr (r : Result) (fallbackValue : Value) : Value :=
  if r.isOk then r.value else fallbackValue

/-- `unwrapErr()`: return `this.error` if error, else
`throw new Error("Cannot unwrapErr an Ok result")` (src/mod.ts 55-60). -/
def Result.unwrapErr (r : Result) : Except Exn Value :=
  if r.isErr then .ok r.error
  else .error (.freshError "Cannot unwrapErr an Ok result")

/-- `map(fn)`: `this.isOk() ? Result.ok(fn(this.value)) : Result.err(this.error)`
(src/mod.ts 75-81). -/
def Result.map (r : Result) (fn : Value → Value) : Result :=
  if r.isOk then Result.ok (fn r.value) else Result.err r.error

/-- `mapErr(fn)`: `this.isErr() ? Result.err(fn(this.error)) : Result.ok(this.value)`
(src/mod.ts 84-90). -/
def Result.mapErr (r : Result) (fn : Value → Value) : Result :=
  if r.isErr then Result.err (fn r.error) else Result.ok r.value

/-- `static some<T>(value)`: `new Option("some", value)` (src/mod.ts 104-106). -/
def Option.some (v : Value) : Option := .mk "some" v

/-- `static none()`: `new Option("none")`; the value slot defaults to the
`Never` marker, i.e. `undefined` (src/mod.ts 109-111). -/
def Option.none : Option := .mk "none" .undefined

/-- The test `maybe === undefined || maybe === null` from `Option.from`
(src/mod.ts 117). -/
def Value.isAbsent : Value → Bool
  | .undefined => true
  | .vnull => true
  | _ => false

/-- `static from(maybe)`: `maybe === undefined || maybe === null ?
Option.none() : Option.some(maybe)` (src/mod.ts 114-120). -/
def Option.fromValue (maybe : Value) : Option :=
  if maybe.isAbsent then Option.none else Option.some maybe

/-- `isSome()`: `this.type === "some"` (src/mod.ts 123-125). -/
def Option.isSome (o : Option) : Bool := o.type == "some"

/-- `isNone()`: `this.type === "none"` (src/mod.ts 128-130). -/
def Option.isNone (o : Option) : Bool := o.type == "none"

/-- `Option.unwrap()`: return `this.value` if some, else
`throw new Error("Cannot unwrap a None option")` (src/mod.ts 133-138). -/
def Option.unwrap (o : Option) : Except Exn Value :=
  if o.isSome then .ok o.value
  else .error (.freshError "Cannot unwrap a None option")

/-- `Option.unwrapOr(fallbackValue)`: `this.isSome() ? this.value :
fallbackValue` (src/mod.ts 141-143). -/
def Option.unwrapOr (o : Option) (fallbackValue : Value) : Value :=
  if o.isSome then o.value else fallbackValue

/-- `Option.map(fn)`: `this.isSome() ? Option.some(fn(this.value)) :
Option.none()` (src/mod.ts 158-160). -/
def Option.map (o : Option) (fn : Value → Value) : Option :=
  if o.isSome then Option.some (fn o.value) else Option.none

/-- The `value instanceof Result || value instanceof Option` inspection used
by both `unwrapDeep` implementations (src/mod.ts 65, 68, 148, 151). -/
def Value.isContainer : Value → Bool
  | .res _ => true
  | .opt _ => true
  | _ => false

mutual

/-- `Result.unwrapDeep()` (src/mod.ts 63-72): `const value = this.unwrap()`
(so an Error variant throws its stored error here), then if the value is a
`Result` or an `Option` recurse into it, else return it.  The `unwrap` call
is unfolded into the match so that the recursion is structural; the lemma
`Result.unwrapDeep_via_unwrap` below recovers the source's phrasing through
`unwrap`. -/
def Result.unwrapDeep : Result → Except Exn Value
  | .mk t v e =>
    if t == "ok" then
      match v with
      | .res r => Result.unwrapDeep r
      | .opt o => Option.unwrapDeep o
      | _ => .ok v
    else .error (.raised e)

/-- `Option.unwrapDeep()` (src/mod.ts 146-155): `const value = this.unwrap()`
(so a None variant throws the fresh "Cannot unwrap a None option" error),
then recurse into a nested container, else return the value. -/
def Option.unwrapDeep : Option → Except Exn Value
  | .mk t v =>
    if t == "some" then
      match v with
      | .res r => Result.unwrapDeep r
      | .opt o => Option.unwrapDeep o
      | _ => .ok v
    else .error (.freshError "Cannot unwrap a None option")

end

mutual

/-- Nesting depth of a container chained through the value slots: the number
of `Result` / `Option` layers on the spine that `unwrapDeep` walks. -/
def Result.depth : Result → Nat
  | .mk _ v _ => v.depthV + 1

/-- Nesting depth of an Option (see `Result.depth`). -/
def Option.depth : Option → Nat
  | .mk _ v => v.depthV + 1

/-- Nesting depth of a value: 0 unless it is a container. -/
def Value.depthV : Value → Nat
  | .res r => Result.depth r
  | .opt o => Option.depth o
  | _ => 0

end

/-- Outcome of a fuel-bounded run of `unwrapDeep`: either the recursion
completed with the method's result, or the fuel ran out first. -/
inductive Fueled : Type where
  | out : Fueled
  | done : Except Exn Value → Fueled

mutual

/-- Fuel-indexed version of `Result.unwrapDeep`, spending one unit of fuel
per recursive layer; used to state that the recursion of the source (which
has no explicit depth limit) terminates within the actual nesting depth. -/
def Result.unwrapDeepFuel : Nat → Result → Fueled
  | 0, _ => .out
  | fuel + 1, .mk t v e =>
    if t == "ok" then
      match v with
      | .res r => Result.unwrapDeepFuel fuel r
      | .opt o => Option.unwrapDeepFuel fuel o
      | _ => .done (.ok v)
    else .done (.error (.raised e))

/-- Fuel-indexed version of `Option.unwrapDeep` (see
`Result.unwrapDeepFuel`). -/
def Option.unwrapDeepFuel : Nat → Option → Fueled
  | 0, _ => .out
  | fuel + 1, .mk t v =>
    if t == "some" then
      match v with
      | .res r => Result.unwrapDeepFuel fuel r
      | .opt o => Option.unwrapDeepFuel fuel o
      | _ => .done (.ok v)
    else .done (.error (.freshError "Cannot unwrap a None option"))

end

/-- Outcome of an already-settled promise: fulfilled with a value or
rejected with a reason. -/
inductive POutcome : Type where
  | fulfilled : Value → POutcome
  | rejected : Value → POutcome

/-- `promise.then(f)` for a settled promise and a non-throwing callback:
maps a fulfillment value through `f`, passes a rejection through. -/
def POutcome.pthen (p : POutcome) (f : Value → Value) : POutcome :=
  match p with
  | .fulfilled v => .fulfilled (f v)
  | .rejected e => .rejected e

/-- `promise.catch(f)` for a settled promise and a non-throwing callback:
passes a fulfillment through, maps a rejection reason through `f` into a
fulfillment. -/
def POutcome.pcatch (p : POutcome) (f : Value → Value) : POutcome :=
  match p with
  | .fulfilled v => .fulfilled v
  | .rejected e => .fulfilled (f e)

/-- `static fromPromise(promise)`: `promise.then(Result.ok).catch(Result.err)`
(src/mod.ts 25-29), stated on the settled outcome of the promise. -/
def Result.fromPromise (p : POutcome) : POutcome :=
  (p.pthen (fun v => Value.res (Result.ok v))).pcatch
    (fun e => Value.res (Result.err e))

/-- Instrumented `Result.map` that also counts how many times `fn` was
invoked, following the branch structure of src/mod.ts line 80 exactly. -/
def Result.mapCount (r : Result) (fn : Value → Value) : Result × Nat :=
  if r.isOk then (Result.ok (fn r.value), 1) else (Result.err r.error, 0)

/-- Instrumented `Result.mapErr` counting invocations of `fn`
(src/mod.ts line 89). -/
def Result.mapErrCount (r : Result) (fn : Value → Value) : Result × Nat :=
  if r.isErr then (Result.err (fn r.error), 1) else (Result.ok r.value, 0)

/-- The instrumented map returns exactly what `map` returns. -/
theorem Result.mapCount_fst (r : Result) (fn : Value → Value) :
    (r.mapCount fn).1 = r.map fn := by
  unfold Result.mapCount Result.map
  by_cases h : r.isOk <;> simp [h]

/-- The instrumented mapErr returns exactly what `mapErr` returns. -/
theorem Result.mapErrCount_fst (r : Result) (fn : Value → Value) :
    (r.mapErrCount fn).1 = r.mapErr fn := by
  unfold Result.mapErrCount Result.mapErr
  by_cases h : r.isErr <;> simp [h]

/-- Faithfulness of the unfolded `Result.unwrapDeep`: it behaves exactly as
the source phrases it, `const value = this.unwrap()` followed by a container
check on `value` (src/mod.ts 64-71). -/
theorem Result.unwrapDeep_via_unwrap (r : Result) (x : Exn) (r' : Result)
    (o : Option) (v : Value) :
    (r.unwrap = Except.error x → r.unwrapDeep = Except.error x) ∧
    (r.unwrap = Except.ok (Value.res r') → r.unwrapDeep = Result.unwrapDeep r') ∧
    (r.unwrap = Except.ok (Value.opt o) → r.unwrapDeep = Option.unwrapDeep o) ∧
    (r.unwrap = Except.ok v → v.isContainer = false →
      r.unwrapDeep = Except.ok v) := by
  obtain ⟨t, w, e⟩ := r
  by_cases ht : t = "ok" <;>
    simp only [Result.unwrap, Result.isOk, Result.type, Result.value,
      Result.error, ht, beq_self_eq_true, if_true, if_pos, if_neg, ite_true,
      ite_false, beq_iff_eq, if_false, reduceIte] <;>
  constructor
  · intro h
    cases h
  · refine ⟨?_, ?_, ?_⟩ <;> intro h
    · cases h
      simp [Result.unwrapDeep]
    · cases h
      simp [Result.unwrapDeep]
    · intro hv
      cases h
      cases v <;> simp_all [Value.isContainer, Result.unwrapDeep]
  · intro h
    cases h
    unfold Result.unwrapDeep
    simp [ht]
  · refine ⟨?_, ?_, ?_⟩ <;> intro h <;> cases h

/-- Faithfulness of the unfolded `Option.unwrapDeep` (src/mod.ts 147-154). -/
theorem Option.unwrapDeep_matches_unwrap (oo : Option) (x : Exn) (r' : Result)
    (o : Option) (v : Value) :
    (oo.unwrap = Except.error x → oo.unwrapDeep = Except.error x) ∧
    (oo.unwrap = Except.ok (Value.res r') → oo.unwrapDeep = Result.unwrapDeep r') ∧
    (oo.unwrap = Except.ok (Value.opt o) → oo.unwrapDeep = Option.unwrapDeep o) ∧
    (oo.unwrap = Except.ok v → v.isContainer = false →
      oo.unwrapDeep = Except.ok v) := by
  obtain ⟨t, w⟩ := oo
  by_cases ht : t = "some" <;>
    simp only [Option.unwrap, Option.isSome, Option.type, Option.value, ht,
      beq_self_eq_true, if_true, if_pos, if_neg, ite_true, ite_false,
      beq_iff_eq, if_false, reduceIte] <;>
  constructor
  · intro h
    cases h
  · refine ⟨?_, ?_, ?_⟩ <;> intro h
    · cases h
      simp [Option.unwrapDeep]
    · cases h
      simp [Option.unwrapDeep]
    · intro hv
      cases h
      cases v <;> simp_all [Value.isContainer, Option.unwrapDeep]
  · intro h
    cases h
    unfold Option.unwrapDeep
    simp [ht]
  · refine ⟨?_, ?_, ?_⟩ <;> intro h <;> cases h

/-- Every exception produced by a deep unwrap is an unwrap failure: either
the `throw this.error` of some Error-variant Result on the nesting spine, or
the fresh "Cannot unwrap a None option" error of a None Option on the spine.
Proved for all containers of depth at most `n`, by induction on `n`. -/
theorem unwrapDeep_error_source (n : Nat) :
    (∀ r : Result, Result.depth r ≤ n → ∀ x : Exn,
      Result.unwrapDeep r = Except.error x →
      (∃ w, x = Exn.raised w) ∨
        x = Exn.freshError "Cannot unwrap a None option") ∧
    (∀ o : Option, Option.depth o ≤ n → ∀ x : Exn,
      Option.unwrapDeep o = Except.error x →
      (∃ w, x = Exn.raised w) ∨
        x = Exn.freshError "Cannot unwrap a None option") := by
  induction n with
  | zero =>
    constructor
    · rintro ⟨t, v, e⟩ h
      simp [Result.depth] at h
    · rintro ⟨t, v⟩ h
      simp [Option.depth] at h
  | succ n ih =>
    obtain ⟨ihr, iho⟩ := ih
    constructor
    · rintro ⟨t, v, e⟩ hd x hx
      by_cases ht : t = "ok"
      · subst ht
        cases v with
        | res r =>
          refine ihr r ?_ x (by simpa [Result.unwrapDeep] using hx)
          simp [Result.depth, Value.depthV] at hd ⊢
          omega
        | opt o =>
          refine iho o ?_ x (by simpa [Result.unwrapDeep] using hx)
          simp [Result.depth, Value.depthV] at hd ⊢
          omega
        | undefined => simp [Result.unwrapDeep] at hx
        | vnull => simp [Result.unwrapDeep] at hx
        | int m => simp [Result.unwrapDeep] at hx
        | str s => simp [Result.unwrapDeep] at hx
        | errObj m => simp [Result.unwrapDeep] at hx
      · unfold Result.unwrapDeep at hx
        simp [ht] at hx
        exact Or.inl ⟨e, hx.symm⟩
    · rintro ⟨t, v⟩ hd x hx
      by_cases ht : t = "some"
      · subst ht
        cases v with
        | res r =>
          refine ihr r ?_ x (by simpa [Option.unwrapDeep] using hx)
          simp [Option.depth, Value.depthV] at hd ⊢
          omega
        | opt o =>
          refine iho o ?_ x (by simpa [Option.unwrapDeep] using hx)
          simp [Option.depth, Value.depthV] at hd ⊢
          omega
        | undefined => simp [Option.unwrapDeep] at hx
        | vnull => simp [Option.unwrapDeep] at hx
        | int m => simp [Option.unwrapDeep] at hx
        | str s => simp [Option.unwrapDeep] at hx
        | errObj m => simp [Option.unwrapDeep] at hx
      · unfold Option.unwrapDeep at hx
        simp [ht] at hx
        exact Or.inr hx.symm

/-- With at least as much fuel as the actual nesting depth, the fuel-indexed
deep unwrap completes and returns exactly what the unbounded recursion of
the source returns.  Proved by induction on the fuel. -/
theorem unwrapDeepFuel_complete (fuel : Nat) :
    (∀ r : Result, Result.depth r ≤ fuel →
      Result.unwrapDeepFuel fuel r = Fueled.done r.unwrapDeep) ∧
    (∀ o : Option, Option.depth o ≤ fuel →
      Option.unwrapDeepFuel fuel o = Fueled.done o.unwrapDeep) := by
  induction fuel with
  | zero =>
    constructor
    · rintro ⟨t, v, e⟩ h
      simp [Result.depth] at h
    · rintro ⟨t, v⟩ h
      simp [Option.depth] at h
  | succ n ih =>
    obtain ⟨ihr, iho⟩ := ih
    constructor
    · rintro ⟨t, v, e⟩ hd
      by_cases ht : t = "ok"
      · subst ht
        cases v with
        | res r =>
          have hr : Result.depth r ≤ n := by
            simp [Result.depth, Value.depthV] at hd
            omega
          simp [Result.unwrapDeepFuel, Result.unwrapDeep, ihr r hr]
        | opt o =>
          have ho : Option.depth o ≤ n := by
            simp [Result.depth, Value.depthV] at hd
            omega
          simp [Result.unwrapDeepFuel, Result.unwrapDeep, iho o ho]
        | undefined => simp [Result.unwrapDeepFuel, Result.unwrapDeep]
        | vnull => simp [Result.unwrapDeepFuel, Result.unwrapDeep]
        | int m => simp [Result.unwrapDeepFuel, Result.unwrapDeep]
        | str s => simp [Result.unwrapDeepFuel, Result.unwrapDeep]
        | errObj m => simp [Result.unwrapDeepFuel, Result.unwrapDeep]
      · unfold Result.unwrapDeepFuel Result.unwrapDeep
        simp [ht]
    · rintro ⟨t, v⟩ hd
      by_cases ht : t = "some"
      · subst ht
        cases v with
        | res r =>
          have hr : Result.depth r ≤ n := by
            simp [Option.depth, Value.depthV] at hd
            omega
          simp [Option.unwrapDeepFuel, Option.unwrapDeep, ihr r hr]
        | opt o =>
          have ho : Option.depth o ≤ n := by
            simp [Option.depth, Value.depthV] at hd
            omega
          simp [Option.unwrapDeepFuel, Option.unwrapDeep, iho o ho]
        | undefined => simp [Option.unwrapDeepFuel, Option.unwrapDeep]
        | vnull => simp [Option.unwrapDeepFuel, Option.unwrapDeep]
        | int m => simp [Option.unwrapDeepFuel, Option.unwrapDeep]
        | str s => simp [Option.unwrapDeepFuel, Option.unwrapDeep]
        | errObj m => simp [Option.unwrapDeepFuel, Option.unwrapDeep]
      · unfold Option.unwrapDeepFuel Option.unwrapDeep
        simp [ht]

/-- C1: for every value `v`, `Result.ok(v).isOk()` is true, `.isErr()` is
false and `.unwrap()` returns `v`; and for every error object `e`,
`Result.err(e).unwrap()` raises exactly the object `e` itself
(`throw this.error`), not a wrapper around it. -/
theorem ok_unwrap_and_err_raises_identity (v e : Value) :
    (Result.ok v).isOk = true ∧
    (Result.ok v).isErr = false ∧
    (Result.ok v).unwrap = Except.ok v ∧
    (Result.err e).unwrap = Except.error (Exn.raised e) :=
  ⟨rfl, rfl, rfl, rfl⟩

/-- C2: `Result.err(e).unwrapErr()` returns `e`; `Result.ok(v).unwrapErr()`
raises the freshly allocated misuse error `new Error("Cannot unwrapErr an
Ok result")`, which — being a fresh allocation — is never `v` itself nor
any error object stored in the Result. -/
theorem unwrapErr_identity_and_fresh_misuse (v e : Value) :
    (Result.err e).unwrapErr = Except.ok e ∧
    (Result.ok v).unwrapErr =
      Except.error (Exn.freshError "Cannot unwrapErr an Ok result") ∧
    (∀ w : Value,
      Exn.freshError "Cannot unwrapErr an Ok result" ≠ Exn.raised w) :=
  ⟨rfl, rfl, fun _ h => Exn.noConfusion h⟩

/-- C3 is refuted: `unwrapDeep` is not total.  Its first step is
`this.unwrap()`, so on `Result.err(new Error("boom"))` it raises the stored
error — contradicting the claim that only `unwrap` and `unwrapErr` can
raise and that `unwrapDeep` never throws. -/
theorem unwrapDeep_raises_on_err_variant :
    Result.unwrapDeep (Result.err (Value.errObj "boom")) =
      Except.error (Exn.raised (Value.errObj "boom")) := rfl

/-- C3 (amended): `unwrap`, `unwrapErr`, `Option.unwrap` and the two
`unwrapDeep` operations are the only operations that can raise; `unwrapOr`,
`map`, `mapErr`, the constructors, the predicates, `Option.from`,
`Option.unwrapOr` and `Option.map` are total.  Moreover every exception a
deep unwrap raises originates in an inner `unwrap` failure: the raising of
a stored error object, or the "Cannot unwrap a None option" fresh error —
never the `unwrapErr` misuse error. -/
theorem only_extraction_raises (r : Result) (oo : Option) (x y : Exn)
    (v e fb : Value) (fn : Value → Value) :
    (Result.unwrapDeep r = Except.error x →
      (∃ w, x = Exn.raised w) ∨
        x = Exn.freshError "Cannot unwrap a None option") ∧
    (Option.unwrapDeep oo = Except.error y →
      (∃ w, y = Exn.raised w) ∨
        y = Exn.freshError "Cannot unwrap a None option") ∧
    Result.unwrapOr (Result.ok v) fb = v ∧
    Result.unwrapOr (Result.err e) fb = fb ∧
    Result.map (Result.err e) fn = Result.err e ∧
    Result.mapErr (Result.ok v) fn = Result.ok v ∧
    Option.unwrapOr (Option.some v) fb = v ∧
    Option.unwrapOr Option.none fb = fb ∧
    Option.map Option.none fn = Option.none :=
  ⟨fun hx => (unwrapDeep_error_source (Result.depth r)).1 r le_rfl x hx,
   fun hy => (unwrapDeep_error_source (Option.depth oo)).2 oo le_rfl y hy,
   rfl, rfl, rfl, rfl, rfl, rfl, rfl⟩

/-- Witness for the amended C3 theorem: at `Result.err(new Error("boom"))`
and `Option.none()`, whose deep unwraps do raise, the raised exceptions are
of the shapes the theorem asserts. -/
theorem only_extraction_raises_witness :
    ((∃ w, Exn.raised (Value.errObj "boom") = Exn.raised w) ∨
      Exn.raised (Value.errObj "boom") =
        Exn.freshError "Cannot unwrap a None option") ∧
    ((∃ w, Exn.freshError "Cannot unwrap a None option" = Exn.raised w) ∨
      Exn.freshError "Cannot unwrap a None option" =
        Exn.freshError "Cannot unwrap a None option") :=
  ⟨(only_extraction_raises (Result.err (Value.errObj "boom")) Option.none
      (Exn.raised (Value.errObj "boom"))
      (Exn.freshError "Cannot unwrap a None option")
      (Value.int 1) (Value.errObj "e") (Value.int 2) (fun z => z)).1 rfl,
   (only_extraction_raises (Result.err (Value.errObj "boom")) Option.none
      (Exn.raised (Value.errObj "boom"))
      (Exn.freshError "Cannot unwrap a None option")
      (Value.int 1) (Value.errObj "e") (Value.int 2) (fun z => z)).2.1 rfl⟩

/-- C4: the map identity law — `r.map(x => x)` is structurally equal to `r`
for both variants: same variant, same success value when Ok, same error
object when Error. -/
theorem map_identity_law (v e : Value) :
    Result.map (Result.ok v) (fun x => x) = Result.ok v ∧
    Result.map (Result.err e) (fun x => x) = Result.err e :=
  ⟨rfl, rfl⟩

/-- C5: `map` and `mapErr` preserve the inactive-variant payload unchanged
and never invoke `fn` on it: `Result.err(e).map(fn)` performs zero calls to
`fn` and returns an Error variant still carrying `e`, and
`Result.ok(v).mapErr(fn)` performs zero calls to `fn` and returns an Ok
variant still carrying `v` — for every `fn`. -/
theorem map_mapErr_preserve_inactive (v e : Value) (fn : Value → Value) :
    Result.mapCount (Result.err e) fn = (Result.err e, 0) ∧
    Result.map (Result.err e) fn = Result.err e ∧
    (Result.map (Result.err e) fn).isErr = true ∧
    (Result.map (Result.err e) fn).error = e ∧
    Result.mapErrCount (Result.ok v) fn = (Result.ok v, 0) ∧
    Result.mapErr (Result.ok v) fn = Result.ok v ∧
    (Result.mapErr (Result.ok v) fn).isOk = true ∧
    (Result.mapErr (Result.ok v) fn).value = v :=
  ⟨rfl, rfl, rfl, rfl, rfl, rfl, rfl, rfl⟩

/-- C6: `unwrapDeep` recursively unwraps nested Result and Option layers
and stops exactly at a non-container payload; in particular
`Result.ok(Result.ok(Option.some(5))).unwrapDeep()` returns `5`. -/
theorem unwrapDeep_recurses_until_non_container (r : Result) (o : Option)
    (v : Value) (hv : v.isContainer = false) :
    Result.unwrapDeep (Result.ok (Value.res r)) = Result.unwrapDeep r ∧
    Result.unwrapDeep (Result.ok (Value.opt o)) = Option.unwrapDeep o ∧
    Result.unwrapDeep (Result.ok v) = Except.ok v ∧
    Option.unwrapDeep (Option.some (Value.res r)) = Result.unwrapDeep r ∧
    Option.unwrapDeep (Option.some (Value.opt o)) = Option.unwrapDeep o ∧
    Option.unwrapDeep (Option.some v) = Except.ok v ∧
    Result.unwrapDeep
        (Result.ok (Value.res
          (Result.ok (Value.opt (Option.some (Value.int 5)))))) =
      Except.ok (Value.int 5) := by
  refine ⟨by simp [Result.unwrapDeep, Result.ok],
    by simp [Result.unwrapDeep, Result.ok], ?_,
    by simp [Option.unwrapDeep, Option.some],
    by simp [Option.unwrapDeep, Option.some], ?_, rfl⟩
  · cases v <;> simp_all [Value.isContainer, Result.unwrapDeep, Result.ok]
  · cases v <;> simp_all [Value.isContainer, Option.unwrapDeep, Option.some]

/-- Witness for C6 at the non-container payload `"x"`. -/
theorem unwrapDeep_recurses_until_non_container_witness :
    Value.isContainer (Value.str "x") = false ∧
    Result.unwrapDeep (Result.ok (Value.str "x")) =
      Except.ok (Value.str "x") ∧
    Option.unwrapDeep (Option.some (Value.str "x")) =
      Except.ok (Value.str "x") :=
  ⟨rfl,
   (unwrapDeep_recurses_until_non_container (Result.ok (Value.int 1))
      Option.none (Value.str "x") rfl).2.2.1,
   (unwrapDeep_recurses_until_non_container (Result.ok (Value.int 1))
      Option.none (Value.str "x") rfl).2.2.2.2.2.1⟩

/-- C7: for every finitely nested container (the inductive `Value` can only
describe finite, non-self-referential nestings), `unwrapDeep` terminates:
given any fuel at least the actual nesting depth — the source imposes no
explicit limit, so any sufficient fuel — the fuel-indexed recursion
completes and returns the recursion's result. -/
theorem unwrapDeep_terminates_within_nesting_depth (r : Result) (o : Option)
    (fuel : Nat) (hr : Result.depth r ≤ fuel) (ho : Option.depth o ≤ fuel) :
    Result.unwrapDeepFuel fuel r = Fueled.done r.unwrapDeep ∧
    Option.unwrapDeepFuel fuel o = Fueled.done o.unwrapDeep :=
  ⟨(unwrapDeepFuel_complete fuel).1 r hr,
   (unwrapDeepFuel_complete fuel).2 o ho⟩

/-- Witness for C7 on a three-deep nesting with fuel 3. -/
theorem unwrapDeep_terminates_within_nesting_depth_witness :
    Result.depth
        (Result.ok (Value.res
          (Result.ok (Value.opt (Option.some (Value.int 5)))))) ≤ 3 ∧
    Result.unwrapDeepFuel 3
        (Result.ok (Value.res
          (Result.ok (Value.opt (Option.some (Value.int 5)))))) =
      Fueled.done (Result.unwrapDeep
        (Result.ok (Value.res
          (Result.ok (Value.opt (Option.some (Value.int 5))))))) :=
  ⟨by decide,
   (unwrapDeep_terminates_within_nesting_depth
      (Result.ok (Value.res
        (Result.ok (Value.opt (Option.some (Value.int 5))))))
      Option.none 3 (by decide) (by decide)).1⟩

/-- C8: `Option.from` maps both absence sentinels (`undefined` and `null`)
to None, and every other input `v` to a Some with `isSome()` true and
`unwrap()` returning `v`. -/
theorem from_sentinels_none_wraps_others (v : Value)
    (hv : v.isAbsent = false) :
    Option.fromValue Value.undefined = Option.none ∧
    Option.fromValue Value.vnull = Option.none ∧
    (Option.fromValue Value.undefined).isNone = true ∧
    (Option.fromValue Value.vnull).isNone = true ∧
    Option.fromValue v = Option.some v ∧
    (Option.fromValue v).isSome = true ∧
    (Option.fromValue v).unwrap = Except.ok v := by
  refine ⟨rfl, rfl, rfl, rfl, ?_, ?_, ?_⟩ <;>
    simp [Option.fromValue, hv, Option.some, Option.isSome, Option.type,
      Option.unwrap, Option.value]

/-- Witness for C8 at the non-sentinel value `5`. -/
theorem from_sentinels_none_wraps_others_witness :
    Value.isAbsent (Value.int 5) = false ∧
    Option.fromValue (Value.int 5) = Option.some (Value.int 5) ∧
    (Option.fromValue (Value.int 5)).unwrap = Except.ok (Value.int 5) :=
  ⟨rfl,
   (from_sentinels_none_wraps_others (Value.int 5) rfl).2.2.2.2.1,
   (from_sentinels_none_wraps_others (Value.int 5) rfl).2.2.2.2.2.2⟩

/-- C9: `Result.fromPromise(p)` = `p.then(Result.ok).catch(Result.err)`
settles, for a promise fulfilled with `v`, to the unmodified `Result.ok(v)`
(for which `isOk()` holds and `unwrap()` returns `v`), and for a promise
rejected with `e` to the unmodified `Result.err(e)` (for which `isErr()`
holds and `unwrapErr()` returns `e`). -/
theorem fromPromise_fulfillment_and_rejection (v e : Value) :
    Result.fromPromise (POutcome.fulfilled v) =
      POutcome.fulfilled (Value.res (Result.ok v)) ∧
    (Result.ok v).isOk = true ∧
    (Result.ok v).unwrap = Except.ok v ∧
    Result.fromPromise (POutcome.rejected e) =
      POutcome.fulfilled (Value.res (Result.err e)) ∧
    (Result.err e).isErr = true ∧
    (Result.err e).unwrapErr = Except.ok e :=
  ⟨rfl, rfl, rfl, rfl, rfl, rfl⟩

/-- C10: `Option.some(v)` is a Some variant for every `v`, including the
absence sentinel itself: `Option.some(undefined)` is Some, its `unwrap()`
returns `undefined`, while `Option.from(undefined)` is None — so `some`
never collapses to None and Some(undefined) is a representable state
distinct from None. -/
theorem some_is_always_some_even_for_undefined (v : Value) :
    (Option.some v).isSome = true ∧
    (Option.some v).isNone = false ∧
    (Option.some Value.undefined).isSome = true ∧
    (Option.some Value.undefined).unwrap = Except.ok Value.undefined ∧
    (Option.fromValue Value.undefined).isNone = true ∧
    Option.some Value.undefined ≠ Option.fromValue Value.undefined :=
  ⟨rfl, rfl, rfl, rfl, rfl,
   fun h => absurd (congrArg Option.type h) (by decide)⟩

end RustTypes
